import Mathlib

/-!
Shallow embedding of the sharded client-registry service (actor/mod.rs).

The shard state is modelled as an association list with the semantics of
the Rust HashMap operations used by the code (insert replaces the entry
for an existing key, get and get_mut find the entry for a key).  Methods
taking a mutable reference to the shard are embedded in state-passing
style: they return the updated state, and a mutable borrow of an entry is
embedded as a lookup followed by a write-back of the (possibly updated)
entry, mirroring what the borrow does to the map.

Machine integers are modelled as Nat (u64, usize) and Int (i64) with the
two-complement casts made explicit; the hash pipeline (DefaultHasher,
which is SipHash-1-3 with both keys zero) is embedded over byte lists.
-/

/-- Client state: one boolean field, as in the Rust struct Client. -/
structure Client where
  is_active : Bool
deriving DecidableEq

/-- Shard state: the map from client id to client state, as in struct Gateway. -/
structure Gateway where
  clients : List (String × Client)
deriving DecidableEq

/-- HashMap.get / get_mut on the model: find the entry for a key. -/
def lookupMap (k : String) : List (String × Client) → Option Client
  | [] => none
  | (k', v) :: rest => if k' = k then some v else lookupMap k rest

/-- HashMap.insert on the model: replace the entry for the key if present,
otherwise append a fresh entry. -/
def insertMap (k : String) (v : Client) : List (String × Client) → List (String × Client)
  | [] => [(k, v)]
  | (k', w) :: rest => if k' = k then (k, v) :: rest else (k', w) :: insertMap k v rest

/-- Gateway::add_client: unconditional HashMap::insert of a default
(inactive) client state. -/
def Gateway.add_client (g : Gateway) (client_id : String) : Gateway :=
  ⟨insertMap client_id ⟨false⟩ g.clients⟩

/-- Gateway::set_is_active: if the id is present, mutate its entry through
the borrow (write-back of the updated client); otherwise do nothing. -/
def Gateway.set_is_active (g : Gateway) (client_id : String) (is_active : Bool) : Gateway :=
  match lookupMap client_id g.clients with
  | some _ => ⟨insertMap client_id ⟨is_active⟩ g.clients⟩
  | none => g

/-- Gateway::get_is_active: takes the map mutably (get_mut), reads the
entry when present (the borrow writes back the untouched entry), and
returns false when absent.  The returned pair is (result, shard state
after the call). -/
def Gateway.get_is_active (g : Gateway) (client_id : String) : Bool × Gateway :=
  match lookupMap client_id g.clients with
  | some client => (client.is_active, ⟨insertMap client_id client g.clients⟩)
  | none => (false, g)

/-- The command protocol (enum Commands).  The reply channel endpoint of
GetIsActive is modelled by whether its receiving side is still alive. -/
inductive Commands where
  | SetIsActive (client_id : String) (is_active : Bool)
  | GetIsActive (client_id : String) (receiverAlive : Bool)
  | AddClient (client_id : String)

/-- Sending on the reply channel: succeeds while the receiver is alive,
returns the value back as a SendError once the receiver was dropped. -/
def replySend (receiverAlive : Bool) (v : Bool) : Except Bool Unit :=
  if receiverAlive then Except.ok () else Except.error v

/-- Body of the task spawned by event_loop for one command: apply the
command to the shard state; for GetIsActive, send the result on the reply
channel and .unwrap() the send result.  The outcome none models the task
panicking at the .unwrap(); some g is the shard state after the task. -/
def event_loop_step (g : Gateway) : Commands → Option Gateway
  | Commands.AddClient client_id => some (g.add_client client_id)
  | Commands.SetIsActive client_id is_active => some (g.set_is_active client_id is_active)
  | Commands.GetIsActive client_id receiverAlive =>
    let r := g.get_is_active client_id
    match replySend receiverAlive r.1 with
    | Except.ok _ => some r.2
    | Except.error _ => none

/-- GatewayService::get_is_active, the part after sending the command:
match on the outcome of receiver.recv().await.  The argument is the recv
outcome: some v when the shard replied v, none when the channel was
closed without a value (reply abandoned). -/
def GatewayService.recv_is_active (recvResult : Option Bool) : Bool :=
  match recvResult with
  | some status => status
  | none => false

/-! The routing layer: DefaultHasher (SipHash-1-3 with both keys zero)
over the UTF-8 bytes of the client id, then jump_hash over the resulting
64-bit value. -/

/-- Reduce a value modulo 2^64 (u64 wrap-around arithmetic). -/
def wrap64 (x : Nat) : Nat := x % 2 ^ 64

/-- Rotate a 64-bit value left by b bits. -/
def rotl (x : Nat) (b : Nat) : Nat := wrap64 (x <<< b) ||| (x >>> (64 - b))

/-- The four 64-bit state words of a SipHash hasher. -/
structure SipState where
  v0 : Nat
  v1 : Nat
  v2 : Nat
  v3 : Nat

/-- One SipHash round. -/
def sipRound (s : SipState) : SipState :=
  let v0 := wrap64 (s.v0 + s.v1)
  let v1 := rotl s.v1 13
  let v1 := v1 ^^^ v0
  let v0 := rotl v0 32
  let v2 := wrap64 (s.v2 + s.v3)
  let v3 := rotl s.v3 16
  let v3 := v3 ^^^ v2
  let v0 := wrap64 (v0 + v3)
  let v3 := rotl v3 21
  let v3 := v3 ^^^ v0
  let v2 := wrap64 (v2 + v1)
  let v1 := rotl v1 17
  let v1 := v1 ^^^ v2
  let v2 := rotl v2 32
  ⟨v0, v1, v2, v3⟩

/-- Absorb one 8-byte message word (SipHash-1-3: one round per word). -/
def sipCompress (s : SipState) (m : Nat) : SipState :=
  let s1 : SipState := ⟨s.v0, s.v1, s.v2, s.v3 ^^^ m⟩
  let s2 := sipRound s1
  ⟨s2.v0 ^^^ m, s2.v1, s2.v2, s2.v3⟩

/-- Little-endian value of a byte list. -/
def leBytes : List Nat → Nat
  | [] => 0
  | b :: rest => b % 256 + 256 * leBytes rest

/-- Split a byte list into full 8-byte little-endian words and the tail
of fewer than 8 remaining bytes. -/
def chunks8 : List Nat → List Nat × List Nat
  | b0 :: b1 :: b2 :: b3 :: b4 :: b5 :: b6 :: b7 :: rest =>
    let p := chunks8 rest
    (leBytes [b0, b1, b2, b3, b4, b5, b6, b7] :: p.1, p.2)
  | rest => ([], rest)

/-- SipHash-1-3 of a byte message under keys k0, k1: the algorithm behind
DefaultHasher in the Rust standard library. -/
def sipHash13 (k0 k1 : Nat) (msg : List Nat) : Nat :=
  let s0 : SipState :=
    ⟨wrap64 k0 ^^^ 0x736f6d6570736575, wrap64 k1 ^^^ 0x646f72616e646f6d,
     wrap64 k0 ^^^ 0x6c7967656e657261, wrap64 k1 ^^^ 0x7465646279746573⟩
  let p := chunks8 msg
  let s1 := p.1.foldl sipCompress s0
  let b := wrap64 ((msg.length % 256) * 2 ^ 56 + leBytes p.2)
  let s2 := sipCompress s1 b
  let s3 : SipState := ⟨s2.v0, s2.v1, s2.v2 ^^^ 0xff, s2.v3⟩
  let s4 := sipRound (sipRound (sipRound s3))
  s4.v0 ^^^ s4.v1 ^^^ s4.v2 ^^^ s4.v3

/-- DefaultHasher::new(): fixed keys (0, 0), no per-process randomness. -/
def defaultHasherNewKeys : Nat × Nat := (0, 0)

/-- Cast an i64 value to u64 (two-complement reinterpretation). -/
def u64_of_i64 (x : Int) : Nat := (x % (2 ^ 64 : Int)).toNat

/-- Cast a u64 value to i64 (two-complement reinterpretation). -/
def i64_of_u64 (v : Nat) : Int :=
  if v % 2 ^ 64 < 2 ^ 63 then ((v % 2 ^ 64 : Nat) : Int) else ((v % 2 ^ 64 : Nat) : Int) - 2 ^ 64

/-- Cast an i64 value to usize on a 64-bit target. -/
def usize_of_i64 (x : Int) : Nat := (x % (2 ^ 64 : Int)).toNat

/-- jump_hash from the source: (hash % buckets as u64) as i64.  The u64
remainder panics when the divisor is zero, modelled as none. -/
def jump_hash (hash : Nat) (buckets : Int) : Option Int :=
  let b := u64_of_i64 buckets
  if b = 0 then none
  else some (i64_of_u64 (hash % b))

/-- GatewayService::get_bucket with the hasher keys made explicit: the
source constructs DefaultHasher::new(), feeds it the id (str hashing
appends a 0xff marker byte to the UTF-8 bytes), takes the 64-bit finish
value, and applies jump_hash with the number of shard senders cast to
i64; the i64 result is cast to usize.  The client id is given as its
UTF-8 byte list. -/
def GatewayService.get_bucket_with (keys : Nat × Nat) (client_id : List Nat)
    (numClients : Nat) : Option Nat :=
  let final_hash := sipHash13 keys.1 keys.2 (client_id ++ [0xff])
  (jump_hash final_hash (i64_of_u64 numClients)).map usize_of_i64

/-- GatewayService::get_bucket as written: the hasher is always the one
DefaultHasher::new() returns. -/
def GatewayService.get_bucket (client_id : List Nat) (numClients : Nat) : Option Nat :=
  GatewayService.get_bucket_with defaultHasherNewKeys client_id numClients

/-! Association-list lemmas used by the shard-level theorems. -/

/-- Looking up a key right after inserting it finds the inserted value. -/
theorem lookupMap_insertMap_self (k : String) (v : Client) (m : List (String × Client)) :
    lookupMap k (insertMap k v m) = some v := by
  induction m with
  | nil => simp [insertMap, lookupMap]
  | cons hd tl ih =>
    obtain ⟨k', w⟩ := hd
    by_cases h : k' = k
    · simp [insertMap, lookupMap, h]
    · simp [insertMap, lookupMap, h, ih]

/-- Inserting at a key right after inserting at it collapses to one insert. -/
theorem insertMap_idem (k : String) (v w : Client) (m : List (String × Client)) :
    insertMap k v (insertMap k w m) = insertMap k v m := by
  induction m with
  | nil => simp [insertMap]
  | cons hd tl ih =>
    obtain ⟨k', u⟩ := hd
    by_cases h : k' = k
    · simp [insertMap, h]
    · simp [insertMap, h, ih]

/-- Writing back the value a lookup found leaves the map unchanged. -/
theorem insertMap_lookupMap_self (k : String) (c : Client) (m : List (String × Client))
    (h : lookupMap k m = some c) : insertMap k c m = m := by
  induction m with
  | nil => simp [lookupMap] at h
  | cons hd tl ih =>
    obtain ⟨k', w⟩ := hd
    by_cases hk : k' = k
    · subst hk
      simp [lookupMap] at h
      simp [insertMap, h]
    · simp [lookupMap, hk] at h
      simp [insertMap, hk, ih h]

/-- Casting a u64 value below 2^63 to i64 and back is the identity. -/
theorem u64_round_trip (v : Nat) (hv : v < 2 ^ 63) : u64_of_i64 (i64_of_u64 v) = v := by
  unfold u64_of_i64 i64_of_u64
  rw [Nat.mod_eq_of_lt (show v < 2 ^ 64 by omega), if_pos hv,
    Int.emod_eq_of_lt (Int.natCast_nonneg v)
      (by exact_mod_cast (show v < 2 ^ 64 by omega))]
  simp

/-- Casting a u64 value below 2^63 to i64 and on to usize is the identity. -/
theorem usize_round_trip (v : Nat) (hv : v < 2 ^ 63) : usize_of_i64 (i64_of_u64 v) = v :=
  u64_round_trip v hv

/-! Concrete shard states used by counterexamples and witnesses. -/

/-- The empty shard state. -/
def g0 : Gateway := ⟨[]⟩

/-- A shard state holding one client whose flag has been set to active. -/
def g1 : Gateway := ⟨[("client123", ⟨true⟩)]⟩

/-! Claims. -/

/-- Claim C1, counterexample: add_client on an id that is already present
does not leave its state untouched — the Rust code is an unconditional
HashMap::insert, so a stored isActive flag of true is reset to false. -/
theorem addClient_present_resets_flag_cex :
    g1.add_client "client123" ≠ g1 ∧
      lookupMap "client123" (g1.add_client "client123").clients = some ⟨false⟩ ∧
      lookupMap "client123" g1.clients = some ⟨true⟩ := by
  decide

/-- Claim C1, amended: add_client overwrites the entry for the id with the
default inactive state even when the id is present, so it does not preserve
an existing isActive flag; nevertheless applying AddClient twice yields
exactly the same shard state as applying it once. -/
theorem addClient_twice_eq_once (g : Gateway) (client_id : String) :
    (g.add_client client_id).add_client client_id = g.add_client client_id :=
  congrArg Gateway.mk (insertMap_idem client_id ⟨false⟩ ⟨false⟩ g.clients)

/-- Claim C2: when the reply channel is abandoned without a value, the
facade returns the same result as a legitimate false reply — the failure
is not distinguishable, contrary to the claim. -/
theorem recvIsActive_conflates_abandoned :
    GatewayService.recv_is_active none = GatewayService.recv_is_active (some false) :=
  rfl

/-- Claim C3: the jump_hash in the code is plain modulo, not the
jump-consistent-hash recurrence.  At the concrete input 5 with 3 buckets
it returns 5 mod 3, and growing from 2 to 3 buckets remaps 8 of the 12
hash values 0..11 — far above the roughly 1/3 fraction the claim
promises for a jump-consistent hash. -/
theorem jump_hash_remaps_most_keys :
    jump_hash 5 3 = some 2 ∧
      ((List.range 12).filter (fun h => decide (jump_hash h 2 ≠ jump_hash h 3))).length = 8 := by
  decide

/-- Claim C4: dispatching a GetIsActive command whose reply receiver has
been dropped makes the spawned handler task panic — the code calls
.unwrap() on the send result, so the send error is not handled as a
recoverable condition (outcome none models the panic). -/
theorem eventLoopStep_panics_on_dropped_receiver :
    event_loop_step g0 (Commands.GetIsActive "client123" false) = none :=
  rfl

/-- Claim C5, counterexample: on the empty shard state, SetActive of an
unknown id is a no-op, so the immediately following GetActive returns
false, not true. -/
theorem setActive_then_get_unknown_cex :
    ¬ (((Gateway.set_is_active ⟨[]⟩ "client123" true).get_is_active "client123").1 = true) := by
  decide

/-- Claim C5, amended: for every shard state and every ClientId that is
present in the shard map, applying SetActive(id, true) and then
GetActive(id), with no intervening commands, returns true. -/
theorem setActive_then_get_present (g : Gateway) (client_id : String)
    (h : ∃ c, lookupMap client_id g.clients = some c) :
    ((g.set_is_active client_id true).get_is_active client_id).1 = true := by
  obtain ⟨c, hc⟩ := h
  simp [Gateway.set_is_active, hc, Gateway.get_is_active, lookupMap_insertMap_self]

/-- Claim C5 witness: the amended read-after-write property at a concrete
state holding the id. -/
theorem setActive_then_get_present_witness :
    ((g1.set_is_active "client123" true).get_is_active "client123").1 = true :=
  setActive_then_get_present g1 "client123" ⟨⟨true⟩, by decide⟩

/-- Claim C6: GetActive returns the stored isActive value when the id is
present and false when it is absent (the operation is total, so it never
crashes). -/
theorem getIsActive_stored_or_default (g : Gateway) (client_id : String) :
    (lookupMap client_id g.clients = none → (g.get_is_active client_id).1 = false) ∧
      (∀ c, lookupMap client_id g.clients = some c →
        (g.get_is_active client_id).1 = c.is_active) := by
  constructor
  · intro h
    simp [Gateway.get_is_active, h]
  · intro c h
    simp [Gateway.get_is_active, h]

/-- Claim C6 witness: both branches at concrete states — an absent id
reads false, a present active id reads true. -/
theorem getIsActive_stored_or_default_witness :
    (g0.get_is_active "client123").1 = false ∧ (g1.get_is_active "client123").1 = true :=
  ⟨(getIsActive_stored_or_default g0 "client123").1 (by decide),
   (getIsActive_stored_or_default g1 "client123").2 ⟨true⟩ (by decide)⟩

/-- Claim C7: SetActive on an id that is absent from the shard map leaves
the whole shard state unchanged. -/
theorem setActive_unknown_noop (g : Gateway) (client_id : String) (v : Bool)
    (h : lookupMap client_id g.clients = none) :
    g.set_is_active client_id v = g := by
  simp [Gateway.set_is_active, h]

/-- Claim C7 witness: SetActive of an unknown id on the empty shard state
is the identity. -/
theorem setActive_unknown_noop_witness : g0.set_is_active "client123" true = g0 :=
  setActive_unknown_noop g0 "client123" true (by decide)

/-- Claim C8: for every key and every bucket count n with 1 ≤ n < 2^63
(the nonnegative i64 range of the bucket count), get_bucket returns some
index r with r < n. -/
theorem get_bucket_in_range (key : List Nat) (n : Nat) (h1 : 1 ≤ n) (h2 : n < 2 ^ 63) :
    ∃ r, GatewayService.get_bucket key n = some r ∧ r < n := by
  refine ⟨sipHash13 0 0 (key ++ [0xff]) % n, ?_, Nat.mod_lt _ h1⟩
  have hu : u64_of_i64 (i64_of_u64 n) = n := u64_round_trip n h2
  rw [show GatewayService.get_bucket key n
      = (jump_hash (sipHash13 0 0 (key ++ [0xff])) (i64_of_u64 n)).map usize_of_i64 from rfl]
  rw [show jump_hash (sipHash13 0 0 (key ++ [0xff])) (i64_of_u64 n)
      = if u64_of_i64 (i64_of_u64 n) = 0 then none
        else some (i64_of_u64
          (sipHash13 0 0 (key ++ [0xff]) % u64_of_i64 (i64_of_u64 n))) from rfl]
  rw [hu, if_neg (by omega)]
  exact congrArg some
    (usize_round_trip _ (lt_of_lt_of_le (Nat.mod_lt _ h1) h2.le))

/-- Claim C8 witness: the bucket of the UTF-8 bytes of client123 under
one bucket exists and is below one. -/
theorem get_bucket_in_range_witness :
    ∃ r, GatewayService.get_bucket [99, 108, 105, 101, 110, 116, 49, 50, 51] 1 = some r ∧
      r < 1 :=
  get_bucket_in_range [99, 108, 105, 101, 110, 116, 49, 50, 51] 1 (by decide) (by decide)

/-- Claim C9: any two evaluations of the bucket computation that build
their hasher the way the code does — via DefaultHasher::new(), whose keys
are the fixed pair (0, 0) with no per-call or per-process randomness —
agree on every (key, numBuckets) pair. -/
theorem get_bucket_deterministic (keys1 keys2 : Nat × Nat)
    (h1 : keys1 = defaultHasherNewKeys) (h2 : keys2 = defaultHasherNewKeys)
    (client_id : List Nat) (numClients : Nat) :
    GatewayService.get_bucket_with keys1 client_id numClients
      = GatewayService.get_bucket_with keys2 client_id numClients := by
  subst h1
  subst h2
  rfl

/-- Claim C9 witness: two evaluations with freshly constructed default
hashers agree at a concrete key and bucket count. -/
theorem get_bucket_deterministic_witness :
    GatewayService.get_bucket_with (0, 0) [99] 1
      = GatewayService.get_bucket_with (0, 0) [99] 1 :=
  get_bucket_deterministic (0, 0) (0, 0) rfl rfl [99] 1

/-- Claim C10: GetActive is read-only at the shard level — although the
code takes the map mutably (get_mut), the shard state after the call is
exactly the shard state before it. -/
theorem getIsActive_preserves_state (g : Gateway) (client_id : String) :
    (g.get_is_active client_id).2 = g := by
  cases g with
  | mk m =>
    unfold Gateway.get_is_active
    split
    · rename_i client heq
      exact congrArg Gateway.mk (insertMap_lookupMap_self _ _ _ heq)
    · rfl
